import Mathlib

/-!
Verification of the MediaProviderWrapper dispatcher
(`src/jni/MediaProviderWrapper.h`).

The repository ships only the header: the class declaration, its field and
method documentation. The implementation file `MediaProviderWrapper.cpp` is
not under `src/`, so the dispatcher's behaviour is modelled from the spec
(`spec.md`), faithful to its words, over the state named by the header's
fields (`jni_tasks_`, `jni_tasks_welcome_`, `request_terminate_jni_thread_`,
the cached `jmethodID`s). Because the queue, the acceptance flag and the
termination flag are observed under one mutual-exclusion lock
(`jni_task_lock_`), every queue operation is atomic, and an execution of the
whole system is an arbitrary interleaving of these atomic events — one event
list covers any number of caller threads plus the single JNI thread.
-/

namespace MediaProviderFuse

/-- A `JniTask` sent to the JNI thread, identified by an id: either a user
task (the closure built by a forwarded operation) or the distinguished
terminal task that sets `request_terminate_jni_thread_`. -/
inductive JniTask where
  | user (id : Nat)
  | terminal
deriving DecidableEq, Repr

/-- Modelled from the spec: the dispatcher state of `MediaProviderWrapper.cpp`
(missing from `src/`), over the header's fields `jni_tasks_` (the FIFO queue),
`jni_tasks_welcome_` (the acceptance flag) and `request_terminate_jni_thread_`
(the termination flag), together with ghost history fields: `accepted` records
the successful enqueues in order, `executed` records the tasks the JNI thread
has run in order, and `returned` records the ids of synchronous submissions
whose completion signal has fired and whose caller has returned true. -/
structure DispatchState where
  jni_tasks_ : List JniTask
  jni_tasks_welcome_ : Bool
  request_terminate_jni_thread_ : Bool
  accepted : List JniTask
  executed : List JniTask
  returned : List Nat
deriving DecidableEq, Repr

/-- The dispatcher state at construction: empty queue, acceptance flag true,
termination flag false. -/
def dispatchInit : DispatchState :=
  { jni_tasks_ := []
    jni_tasks_welcome_ := true
    request_terminate_jni_thread_ := false
    accepted := []
    executed := []
    returned := [] }

/-- Modelled from the spec: the enqueue phase of `PostAndWaitForTask` (its body
is missing from `src/`). Under the lock it checks the acceptance flag: when
true it appends the wrapped task at the tail and reports acceptance; when false
it returns false immediately, without enqueuing and without touching the
caller's result slot. -/
def PostAndWaitForTaskEnqueue (s : DispatchState) (id : Nat) :
    DispatchState × Bool :=
  if s.jni_tasks_welcome_ then
    ({ s with
        jni_tasks_ := s.jni_tasks_ ++ [JniTask.user id]
        accepted := s.accepted ++ [JniTask.user id] }, true)
  else (s, false)

/-- Modelled from the spec: the wait phase of `PostAndWaitForTask`. The caller
blocks on the per-call completion signal; it returns (adding its id to the
`returned` ghost history) only once the JNI thread has executed its task, and
otherwise keeps waiting, leaving the state unchanged. -/
def PostAndWaitForTaskReturn (s : DispatchState) (id : Nat) : DispatchState :=
  if JniTask.user id ∈ s.executed then
    { s with returned := s.returned ++ [id] }
  else s

/-- Modelled from the spec: `PostAsyncTask` (its body is missing from `src/`).
When the acceptance flag is true it appends the task at the tail; when false
the task is silently dropped. -/
def PostAsyncTask (s : DispatchState) (id : Nat) : DispatchState :=
  if s.jni_tasks_welcome_ then
    { s with
        jni_tasks_ := s.jni_tasks_ ++ [JniTask.user id]
        accepted := s.accepted ++ [JniTask.user id] }
  else s

/-- Modelled from the spec: the shutdown sequence started by the destructor
`~MediaProviderWrapper` (missing from `src/`). It flips the acceptance flag to
false, so that no further submission is possible, and only then enqueues the
terminal task at the tail. Shutdown of an already shut-down dispatcher does
nothing (the lifecycle is a linear, non-restartable progression). -/
def beginShutdown (s : DispatchState) : DispatchState :=
  if s.jni_tasks_welcome_ then
    { s with
        jni_tasks_welcome_ := false
        jni_tasks_ := s.jni_tasks_ ++ [JniTask.terminal]
        accepted := s.accepted ++ [JniTask.terminal] }
  else s

/-- Modelled from the spec: one iteration of `JniThreadLoop` (missing from
`src/`). While the termination flag is unset, the JNI thread removes the head
task and executes it; executing the terminal task sets
`request_terminate_jni_thread_`. With an empty queue the thread sleeps on
`pending_task_cond_` (no state change). -/
def JniThreadLoopStep (s : DispatchState) : DispatchState :=
  if s.request_terminate_jni_thread_ then s
  else
    match s.jni_tasks_ with
    | [] => s
    | t :: rest =>
        { s with
            jni_tasks_ := rest
            executed := s.executed ++ [t]
            request_terminate_jni_thread_ := decide (t = JniTask.terminal) }

/-- An atomic event of the dispatcher system: a submission by some caller
thread, the destructor's shutdown, one loop iteration of the JNI thread, or a
synchronous caller returning after its completion signal fired. -/
inductive DispatchEvent where
  | postSync (id : Nat)
  | postAsync (id : Nat)
  | shutdown
  | execNext
  | syncReturn (id : Nat)
deriving DecidableEq, Repr

/-- The transition function of the dispatcher system. -/
def dispatchStep (s : DispatchState) : DispatchEvent → DispatchState
  | .postSync id => (PostAndWaitForTaskEnqueue s id).1
  | .postAsync id => PostAsyncTask s id
  | .shutdown => beginShutdown s
  | .execNext => JniThreadLoopStep s
  | .syncReturn id => PostAndWaitForTaskReturn s id

/-- The state reached from construction after an arbitrary interleaving of
events. -/
def dispatchRun (es : List DispatchEvent) : DispatchState :=
  es.foldl dispatchStep dispatchInit

/-- JNI thread iterations applied `n` times (draining the queue). -/
def drainLoop (s : DispatchState) : Nat → DispatchState
  | 0 => s
  | n + 1 => drainLoop (JniThreadLoopStep s) n

/-- The dispatcher invariant: the executed history followed by the pending
queue is exactly the sequence of successful enqueues in order (strict FIFO);
while the acceptance flag is still true no terminal task exists anywhere and
termination has not been requested; and every synchronous submission that
returned had its task executed first. -/
def DispatchInv (s : DispatchState) : Prop :=
  s.executed ++ s.jni_tasks_ = s.accepted
  ∧ (s.jni_tasks_welcome_ = true →
      s.request_terminate_jni_thread_ = false
      ∧ JniTask.terminal ∉ s.jni_tasks_
      ∧ JniTask.terminal ∉ s.executed)
  ∧ (∀ id, id ∈ s.returned → JniTask.user id ∈ s.executed)

/-- The caller's captured result slot for synchronous submission `id` has been
written: the JNI thread has executed the task, whose body writes the result
through the captured reference before the completion signal fires. -/
def resultSlotWritten (s : DispatchState) (id : Nat) : Prop :=
  JniTask.user id ∈ s.executed

/-- The destructor's full shutdown behaviour: begin shutdown (flip the
acceptance flag, enqueue the terminal task) and then let the JNI thread drain
the whole queue, one loop iteration per pending task. -/
def shutdownDrain (s : DispatchState) : DispatchState :=
  drainLoop (beginShutdown s) (beginShutdown s).jni_tasks_.length

/-- Modelled from the spec: an argument passed in a call into the foreign
(Java) runtime. -/
inductive JArg where
  | jstr (s : String)
  | juid (u : Nat)
  | jbool (b : Bool)
deriving DecidableEq, Repr

/-- Modelled from the spec: a call into the foreign runtime, made through one
of the cached method ids (method ids and object handles are modelled as opaque
numeric identifiers). -/
structure JavaCall where
  methodId : Nat
  args : List JArg
deriving DecidableEq, Repr

/-- The cached foreign-runtime state of the wrapper — `media_provider_class_`,
`media_provider_object_` and the cached `jmethodID` fields of the header —
together with the dispatcher state. -/
structure MediaProviderWrapper where
  media_provider_class_ : Nat
  media_provider_object_ : Nat
  mid_get_redaction_ranges_ : Nat
  mid_insert_file_ : Nat
  mid_delete_file_ : Nat
  mid_is_open_allowed_ : Nat
  mid_scan_file_ : Nat
  mid_is_dir_op_allowed_ : Nat
  mid_is_opendir_allowed_ : Nat
  mid_get_directory_entries_ : Nat
  dispatch : DispatchState
deriving DecidableEq, Repr

/-- A wrapper as the constructor leaves it: distinct cached method ids, fresh
dispatcher. -/
def sampleWrapper : MediaProviderWrapper :=
  { media_provider_class_ := 0
    media_provider_object_ := 1
    mid_get_redaction_ranges_ := 2
    mid_insert_file_ := 3
    mid_delete_file_ := 4
    mid_is_open_allowed_ := 5
    mid_scan_file_ := 6
    mid_is_dir_op_allowed_ := 7
    mid_is_opendir_allowed_ := 8
    mid_get_directory_entries_ := 9
    dispatch := dispatchInit }

/-- Modelled from the spec: the foreign call built by `InsertFile`'s task,
through `mid_insert_file_`. -/
def callInsertFile (w : MediaProviderWrapper) (path : String) (uid : Nat) :
    JavaCall :=
  { methodId := w.mid_insert_file_, args := [JArg.jstr path, JArg.juid uid] }

/-- Modelled from the spec: the foreign call built by `DeleteFile`'s task,
through `mid_delete_file_`. -/
def callDeleteFile (w : MediaProviderWrapper) (path : String) (uid : Nat) :
    JavaCall :=
  { methodId := w.mid_delete_file_, args := [JArg.jstr path, JArg.juid uid] }

/-- Modelled from the spec: the foreign call built by `IsOpenAllowed`'s task,
through `mid_is_open_allowed_`. -/
def callIsOpenAllowed (w : MediaProviderWrapper) (path : String) (uid : Nat)
    (for_write : Bool) : JavaCall :=
  { methodId := w.mid_is_open_allowed_
    args := [JArg.jstr path, JArg.juid uid, JArg.jbool for_write] }

/-- Modelled from the spec: the foreign call built by `IsCreatingDirAllowed`'s
task, through the shared `mid_is_dir_op_allowed_`, with the flag marking a
directory creation. -/
def callIsCreatingDirAllowed (w : MediaProviderWrapper) (path : String)
    (uid : Nat) : JavaCall :=
  { methodId := w.mid_is_dir_op_allowed_
    args := [JArg.jstr path, JArg.juid uid, JArg.jbool true] }

/-- Modelled from the spec: the foreign call built by `IsDeletingDirAllowed`'s
task, through the shared `mid_is_dir_op_allowed_`, with the flag marking a
directory deletion. -/
def callIsDeletingDirAllowed (w : MediaProviderWrapper) (path : String)
    (uid : Nat) : JavaCall :=
  { methodId := w.mid_is_dir_op_allowed_
    args := [JArg.jstr path, JArg.juid uid, JArg.jbool false] }

/-- Modelled from the spec's words, for the refinement comparison of C10: the
single common dispatch for both directory-permission checks — one foreign
entry point reached through `mid_is_dir_op_allowed_`, the two checks differing
only in the create/delete flag. -/
def callIsDirOpAllowed (w : MediaProviderWrapper) (path : String) (uid : Nat)
    (forCreate : Bool) : JavaCall :=
  { methodId := w.mid_is_dir_op_allowed_
    args := [JArg.jstr path, JArg.juid uid, JArg.jbool forCreate] }

/-- Modelled from the spec: the foreign call built by `IsOpendirAllowed`'s
task, through `mid_is_opendir_allowed_`. -/
def callIsOpendirAllowed (w : MediaProviderWrapper) (path : String)
    (uid : Nat) : JavaCall :=
  { methodId := w.mid_is_opendir_allowed_
    args := [JArg.jstr path, JArg.juid uid] }

/-- Modelled from the spec: the foreign call built by `GetDirectoryEntries`'s
task, through `mid_get_directory_entries_`. -/
def callGetDirectoryEntries (w : MediaProviderWrapper) (uid : Nat)
    (path : String) : JavaCall :=
  { methodId := w.mid_get_directory_entries_
    args := [JArg.juid uid, JArg.jstr path] }

/-- Modelled from the spec: the outcome of a status-returning foreign call —
success (the operation succeeded or is allowed), or a specific denial or error
reason reported as an errno value. -/
inductive JavaStatus where
  | success
  | error (errno : Nat)
deriving DecidableEq, Repr

/-- Modelled from the spec: the POSIX-style conversion of a foreign outcome to
the status code the wrapper returns — zero on success, the negated errno
otherwise. -/
def statusToInt : JavaStatus → Int
  | .success => 0
  | .error e => -(e : Int)

/-- "Inserts a new entry for the given path and UID. (...) return 0 if the
operation succeeded, or negated errno error code if operation fails." The
foreign behaviour is the opaque parameter `java`. -/
def InsertFile (w : MediaProviderWrapper) (java : JavaCall → JavaStatus)
    (path : String) (uid : Nat) : Int :=
  statusToInt (java (callInsertFile w path uid))

/-- "Delete the file denoted by the given path on behalf of the given UID.
(...) return 0 upon success, or negated errno error code if operation
fails." -/
def DeleteFile (w : MediaProviderWrapper) (java : JavaCall → JavaStatus)
    (path : String) (uid : Nat) : Int :=
  statusToInt (java (callDeleteFile w path uid))

/-- "Determines if the given UID is allowed to open the file denoted by the
given path. (...) return 0 upon success or negated errno value upon
failure." -/
def IsOpenAllowed (w : MediaProviderWrapper) (java : JavaCall → JavaStatus)
    (path : String) (uid : Nat) (for_write : Bool) : Int :=
  statusToInt (java (callIsOpenAllowed w path uid for_write))

/-- "Determines if the given UID is allowed to create a directory with the
given path. (...) return 0 if it's allowed, or negated errno error code if
operation isn't allowed." -/
def IsCreatingDirAllowed (w : MediaProviderWrapper)
    (java : JavaCall → JavaStatus) (path : String) (uid : Nat) : Int :=
  statusToInt (java (callIsCreatingDirAllowed w path uid))

/-- "Determines if the given UID is allowed to delete the directory with the
given path. (...) return 0 if it's allowed, or negated errno error code if
operation isn't allowed." -/
def IsDeletingDirAllowed (w : MediaProviderWrapper)
    (java : JavaCall → JavaStatus) (path : String) (uid : Nat) : Int :=
  statusToInt (java (callIsDeletingDirAllowed w path uid))

/-- "Determines if the given UID is allowed to open the directory with the
given path. (...) return 0 if it's allowed, or negated errno error code if
operation isn't allowed." -/
def IsOpendirAllowed (w : MediaProviderWrapper)
    (java : JavaCall → JavaStatus) (path : String) (uid : Nat) : Int :=
  statusToInt (java (callIsOpendirAllowed w path uid))

/-- The six forwarded status-returning operations of the header. -/
inductive StatusOp where
  | insertFile
  | deleteFile
  | isOpenAllowed
  | isCreatingDirAllowed
  | isDeletingDirAllowed
  | isOpendirAllowed
deriving DecidableEq, Repr

/-- The foreign call a given status-returning operation makes. -/
def statusOpCall (op : StatusOp) (w : MediaProviderWrapper) (path : String)
    (uid : Nat) (for_write : Bool) : JavaCall :=
  match op with
  | .insertFile => callInsertFile w path uid
  | .deleteFile => callDeleteFile w path uid
  | .isOpenAllowed => callIsOpenAllowed w path uid for_write
  | .isCreatingDirAllowed => callIsCreatingDirAllowed w path uid
  | .isDeletingDirAllowed => callIsDeletingDirAllowed w path uid
  | .isOpendirAllowed => callIsOpendirAllowed w path uid

/-- The integer a given status-returning operation returns. -/
def runStatusOp (op : StatusOp) (w : MediaProviderWrapper)
    (java : JavaCall → JavaStatus) (path : String) (uid : Nat)
    (for_write : Bool) : Int :=
  match op with
  | .insertFile => InsertFile w java path uid
  | .deleteFile => DeleteFile w java path uid
  | .isOpenAllowed => IsOpenAllowed w java path uid for_write
  | .isCreatingDirAllowed => IsCreatingDirAllowed w java path uid
  | .isDeletingDirAllowed => IsDeletingDirAllowed w java path uid
  | .isOpendirAllowed => IsOpendirAllowed w java path uid

/-- A directory entry as returned through the `ReaddirHelper` types (that
header is not under `src/`; a name plus entry type suffices here). -/
structure DirectoryEntry where
  d_name : String
  d_type : Nat
deriving DecidableEq, Repr

/-- Modelled from the spec (header doc, lines 83–95): the MediaProvider
database's answer for a directory listing — either the directory path is
unknown to MediaProvider, or the (possibly empty) list of entries visible to
the calling app. -/
inductive DirListing where
  | unknownPath
  | visible (entries : List DirectoryEntry)
deriving DecidableEq, Repr

/-- "Gets directory entries for given relative path from MediaProvider
database. (...) return DirectoryEntries with list of directory entries on
success, DirectoryEntries with an empty list if directory path is unknown to
MediaProvider or no directory entries are visible to the calling app." The
database's answer is the opaque parameter `java`. -/
def GetDirectoryEntries (w : MediaProviderWrapper)
    (java : JavaCall → DirListing) (uid : Nat) (path : String) :
    List DirectoryEntry :=
  match java (callGetDirectoryEntries w uid path) with
  | .unknownPath => []
  | .visible entries => entries

/-- The nine public forwarded operations of the header. -/
inductive PublicOp where
  | getRedactionInfo
  | insertFile
  | deleteFile
  | getDirectoryEntries
  | isOpenAllowed
  | scanFile
  | isCreatingDirAllowed
  | isDeletingDirAllowed
  | isOpendirAllowed
deriving DecidableEq, Repr

/-- Which of the two submission mechanisms an operation uses. -/
inductive SubmissionKind where
  | sync
  | async
deriving DecidableEq, Repr

/-- Modelled from the spec: each public forwarded operation builds a task
capturing its inputs and an output slot and chooses synchronous submission
when its caller needs the result before proceeding — all but the scan
notification, which uses asynchronous submission. -/
def submissionKind : PublicOp → SubmissionKind
  | .scanFile => .async
  | _ => .sync

/-- Modelled from the spec: whether the operation delivers a result to its
caller; the scan notification is fire-and-forget and returns nothing. -/
def deliversResult : PublicOp → Bool
  | .scanFile => false
  | _ => true

/-- The submission a public operation performs on the dispatcher: through
`PostAndWaitForTask` when synchronous, through `PostAsyncTask` when
asynchronous. -/
def submitOp (op : PublicOp) (s : DispatchState) (taskId : Nat) :
    DispatchState :=
  match submissionKind op with
  | .sync => (PostAndWaitForTaskEnqueue s taskId).1
  | .async => PostAsyncTask s taskId

/-- Modelled from the spec: running a public operation from wrapper state `w`
builds a task and submits it to the dispatcher; nothing else of the wrapper is
touched. -/
def runPublicOp (w : MediaProviderWrapper) (op : PublicOp) (taskId : Nat) :
    MediaProviderWrapper :=
  { w with dispatch := submitOp op w.dispatch taskId }

lemma JniThreadLoopStep_pop (s : DispatchState) (t : JniTask)
    (rest : List JniTask)
    (ht : s.request_terminate_jni_thread_ = false)
    (hq : s.jni_tasks_ = t :: rest) :
    JniThreadLoopStep s =
      { s with
          jni_tasks_ := rest
          executed := s.executed ++ [t]
          request_terminate_jni_thread_ := decide (t = JniTask.terminal) } := by
  unfold JniThreadLoopStep
  rw [ht, hq]
  simp

lemma JniThreadLoopStep_frame (s : DispatchState) :
    (JniThreadLoopStep s).jni_tasks_welcome_ = s.jni_tasks_welcome_
    ∧ (JniThreadLoopStep s).accepted = s.accepted
    ∧ (JniThreadLoopStep s).returned = s.returned := by
  unfold JniThreadLoopStep
  split
  · exact ⟨rfl, rfl, rfl⟩
  · split
    · exact ⟨rfl, rfl, rfl⟩
    · exact ⟨rfl, rfl, rfl⟩

lemma PostAndWaitForTaskReturn_frame (s : DispatchState) (id : Nat) :
    (PostAndWaitForTaskReturn s id).jni_tasks_welcome_ = s.jni_tasks_welcome_
    ∧ (PostAndWaitForTaskReturn s id).accepted = s.accepted
    ∧ (PostAndWaitForTaskReturn s id).jni_tasks_ = s.jni_tasks_
    ∧ (PostAndWaitForTaskReturn s id).executed = s.executed := by
  unfold PostAndWaitForTaskReturn
  split
  · exact ⟨rfl, rfl, rfl, rfl⟩
  · exact ⟨rfl, rfl, rfl, rfl⟩

lemma dispatchInv_init : DispatchInv dispatchInit := by
  refine ⟨rfl, fun _ => ⟨rfl, ?_, ?_⟩, fun id h => ?_⟩ <;>
    simp [dispatchInit] at *

lemma dispatchInv_step (s : DispatchState) (e : DispatchEvent)
    (h : DispatchInv s) : DispatchInv (dispatchStep s e) := by
  obtain ⟨h1, h2, h3⟩ := h
  cases e with
  | postSync id =>
      unfold dispatchStep PostAndWaitForTaskEnqueue
      cases hw : s.jni_tasks_welcome_ with
      | false => exact ⟨h1, h2, h3⟩
      | true =>
          obtain ⟨ht, hq, he⟩ := h2 hw
          refine ⟨?_, fun _ => ⟨ht, ?_, he⟩, h3⟩
          · simp [← List.append_assoc, h1]
          · simp [hq]
  | postAsync id =>
      unfold dispatchStep PostAsyncTask
      cases hw : s.jni_tasks_welcome_ with
      | false => exact ⟨h1, h2, h3⟩
      | true =>
          obtain ⟨ht, hq, he⟩ := h2 hw
          refine ⟨?_, fun _ => ⟨ht, ?_, he⟩, h3⟩
          · simp [← List.append_assoc, h1]
          · simp [hq]
  | shutdown =>
      unfold dispatchStep beginShutdown
      cases hw : s.jni_tasks_welcome_ with
      | false => exact ⟨h1, h2, h3⟩
      | true =>
          refine ⟨?_, fun hfalse => by simp at hfalse, h3⟩
          simp [← List.append_assoc, h1]
  | execNext =>
      show DispatchInv (JniThreadLoopStep s)
      cases ht : s.request_terminate_jni_thread_ with
      | true =>
          rw [show JniThreadLoopStep s = s by
            unfold JniThreadLoopStep; rw [ht]; simp]
          exact ⟨h1, h2, h3⟩
      | false =>
          cases hq : s.jni_tasks_ with
          | nil =>
              rw [show JniThreadLoopStep s = s by
                unfold JniThreadLoopStep; rw [ht, hq]; simp]
              exact ⟨h1, h2, h3⟩
          | cons t rest =>
              rw [JniThreadLoopStep_pop s t rest ht hq]
              refine ⟨?_, fun hw => ?_, fun id hid => ?_⟩
              · rw [← h1, hq]; simp
              · obtain ⟨_, hnq, hne⟩ := h2 hw
                rw [hq] at hnq
                have htne : ¬t = JniTask.terminal := fun heq =>
                  hnq (heq ▸ List.mem_cons_self _ _)
                refine ⟨?_, fun hmem => hnq (List.mem_cons_of_mem _ hmem), ?_⟩
                · simp [htne]
                · intro hmem
                  rcases List.mem_append.mp hmem with hl | hr
                  · exact hne hl
                  · have hterm : JniTask.terminal = t := by simpa using hr
                    exact htne hterm.symm
              · exact List.mem_append_left _ (h3 id hid)
  | syncReturn id =>
      unfold dispatchStep PostAndWaitForTaskReturn
      by_cases hmem : JniTask.user id ∈ s.executed
      · simp only [if_pos hmem]
        refine ⟨h1, h2, fun i hi => ?_⟩
        simp only [List.mem_append, List.mem_singleton] at hi
        rcases hi with hi | hi
        · exact h3 i hi
        · exact hi ▸ hmem
      · simp only [if_neg hmem]
        exact ⟨h1, h2, h3⟩

lemma dispatchInv_steps (es : List DispatchEvent) :
    ∀ s, DispatchInv s → DispatchInv (es.foldl dispatchStep s) := by
  induction es with
  | nil => exact fun s h => h
  | cons e es ih => exact fun s h => ih _ (dispatchInv_step s e h)

lemma dispatchInv_run (es : List DispatchEvent) :
    DispatchInv (dispatchRun es) :=
  dispatchInv_steps es dispatchInit dispatchInv_init

lemma step_unwelcome (s : DispatchState) (e : DispatchEvent)
    (hw : s.jni_tasks_welcome_ = false) :
    (dispatchStep s e).jni_tasks_welcome_ = false
    ∧ (dispatchStep s e).accepted = s.accepted := by
  cases e with
  | postSync id => simp [dispatchStep, PostAndWaitForTaskEnqueue, hw]
  | postAsync id => simp [dispatchStep, PostAsyncTask, hw]
  | shutdown => simp [dispatchStep, beginShutdown, hw]
  | execNext =>
      obtain ⟨hfw, hfa, _⟩ := JniThreadLoopStep_frame s
      exact ⟨hfw.trans hw, hfa⟩
  | syncReturn id =>
      obtain ⟨hfw, hfa, _, _⟩ := PostAndWaitForTaskReturn_frame s id
      exact ⟨hfw.trans hw, hfa⟩

lemma steps_unwelcome (es : List DispatchEvent) :
    ∀ s, s.jni_tasks_welcome_ = false →
      (es.foldl dispatchStep s).jni_tasks_welcome_ = false
      ∧ (es.foldl dispatchStep s).accepted = s.accepted := by
  induction es with
  | nil => exact fun s hw => ⟨hw, rfl⟩
  | cons e es ih =>
      intro s hw
      obtain ⟨hw2, hacc2⟩ := step_unwelcome s e hw
      obtain ⟨hw3, hacc3⟩ := ih _ hw2
      exact ⟨hw3, hacc3.trans hacc2⟩

lemma dispatchRun_append (es es' : List DispatchEvent) :
    dispatchRun (es ++ es') = es'.foldl dispatchStep (dispatchRun es) := by
  unfold dispatchRun
  exact List.foldl_append _ _ es es'

lemma drainLoop_terminalFree (q : List JniTask) :
    ∀ s : DispatchState,
      s.request_terminate_jni_thread_ = false →
      JniTask.terminal ∉ q →
      s.jni_tasks_ = q ++ [JniTask.terminal] →
      (drainLoop s (q.length + 1)).jni_tasks_ = []
      ∧ (drainLoop s (q.length + 1)).executed
          = s.executed ++ q ++ [JniTask.terminal]
      ∧ (drainLoop s (q.length + 1)).request_terminate_jni_thread_ = true := by
  induction q with
  | nil =>
      intro s ht _ hq
      simp only [List.length_nil]
      unfold drainLoop
      rw [JniThreadLoopStep_pop s JniTask.terminal [] ht (by simpa using hq)]
      unfold drainLoop
      simp
  | cons t q ih =>
      intro s ht hmem hq
      have htne : ¬t = JniTask.terminal := fun heq =>
        hmem (heq ▸ List.mem_cons_self _ _)
      have hstep := JniThreadLoopStep_pop s t (q ++ [JniTask.terminal]) ht
        (by simpa using hq)
      have hrec := ih (JniThreadLoopStep s)
        (by rw [hstep]; simp [htne])
        (fun hm => hmem (List.mem_cons_of_mem _ hm))
        (by rw [hstep])
      rw [show (t :: q).length + 1 = (q.length + 1) + 1 by simp]
      unfold drainLoop
      refine ⟨hrec.1, ?_, hrec.2.2⟩
      rw [hrec.2.1, hstep]
      simp

/-- C1: for every sequence of interleaved synchronous and asynchronous
submissions from any number of caller threads, the tasks successfully enqueued
are executed by the JNI thread in exactly their enqueue order — the executed
history followed by the still-pending queue is precisely the sequence of
successful enqueues, so execution is strict FIFO with no reordering, priority
or deduplication. -/
theorem fifoExecutionOrder (es : List DispatchEvent) :
    (dispatchRun es).executed ++ (dispatchRun es).jni_tasks_
      = (dispatchRun es).accepted :=
  (dispatchInv_run es).1

/-- C2: once the acceptance flag `jni_tasks_welcome_` is false, a synchronous
submission returns false immediately without enqueuing and without touching the
state (so the caller's result slot keeps its documented default), an
asynchronous submission silently drops the task, and a task not already
accepted is never executed, whatever happens afterwards. -/
theorem submissionAfterShutdownRejected (es es' : List DispatchEvent)
    (id : Nat) (hw : (dispatchRun es).jni_tasks_welcome_ = false) :
    PostAndWaitForTaskEnqueue (dispatchRun es) id = ((dispatchRun es), false)
    ∧ PostAsyncTask (dispatchRun es) id = dispatchRun es
    ∧ (JniTask.user id ∉ (dispatchRun es).accepted →
        JniTask.user id ∉ (dispatchRun (es ++ es')).executed) := by
  refine ⟨?_, ?_, fun hacc hmem => ?_⟩
  · simp [PostAndWaitForTaskEnqueue, hw]
  · simp [PostAsyncTask, hw]
  · have hfifo := (dispatchInv_run (es ++ es')).1
    have hsteps := steps_unwelcome es' (dispatchRun es) hw
    have haccEq : (dispatchRun (es ++ es')).accepted
        = (dispatchRun es).accepted := by
      rw [dispatchRun_append]; exact hsteps.2
    have hin : JniTask.user id ∈ (dispatchRun (es ++ es')).accepted := by
      rw [← hfifo]; exact List.mem_append_left _ hmem
    rw [haccEq] at hin
    exact hacc hin

theorem submissionAfterShutdownRejected_witness :
    (dispatchRun [DispatchEvent.shutdown]).jni_tasks_welcome_ = false
    ∧ JniTask.user 7 ∉ (dispatchRun ([DispatchEvent.shutdown] ++
        [DispatchEvent.postSync 7, DispatchEvent.postAsync 7,
         DispatchEvent.execNext, DispatchEvent.execNext])).executed :=
  ⟨by decide,
   (submissionAfterShutdownRejected [DispatchEvent.shutdown]
      [DispatchEvent.postSync 7, DispatchEvent.postAsync 7,
       DispatchEvent.execNext, DispatchEvent.execNext] 7 (by decide)).2.2
      (by decide)⟩

/-- C3: the acceptance flag is true at construction; once it is false it stays
false under every event and the sequence of accepted tasks no longer grows (no
new task is ever appended), while the JNI thread keeps draining the pending
queue — whenever termination has not yet been requested and the queue is
non-empty, the next loop iteration executes the head task (the terminal task
being the one whose execution sets `request_terminate_jni_thread_`). -/
theorem acceptanceFlagLifecycle :
    dispatchInit.jni_tasks_welcome_ = true
    ∧ (∀ es e, (dispatchRun es).jni_tasks_welcome_ = false →
        (dispatchStep (dispatchRun es) e).jni_tasks_welcome_ = false
        ∧ (dispatchStep (dispatchRun es) e).accepted
            = (dispatchRun es).accepted)
    ∧ (∀ es t rest,
        (dispatchRun es).request_terminate_jni_thread_ = false →
        (dispatchRun es).jni_tasks_ = t :: rest →
        (dispatchStep (dispatchRun es) DispatchEvent.execNext).executed
          = (dispatchRun es).executed ++ [t]) := by
  refine ⟨rfl, fun es e hw => step_unwelcome _ e hw,
    fun es t rest ht hq => ?_⟩
  show (JniThreadLoopStep (dispatchRun es)).executed = _
  rw [JniThreadLoopStep_pop _ t rest ht hq]

theorem acceptanceFlagLifecycle_witness :
    ((dispatchStep (dispatchRun [DispatchEvent.shutdown])
        (DispatchEvent.postAsync 3)).jni_tasks_welcome_ = false
     ∧ (dispatchStep (dispatchRun [DispatchEvent.shutdown])
        (DispatchEvent.postAsync 3)).accepted
          = (dispatchRun [DispatchEvent.shutdown]).accepted)
    ∧ (dispatchStep (dispatchRun [DispatchEvent.postSync 1])
        DispatchEvent.execNext).executed
          = (dispatchRun [DispatchEvent.postSync 1]).executed
              ++ [JniTask.user 1] :=
  ⟨acceptanceFlagLifecycle.2.1 [DispatchEvent.shutdown]
      (DispatchEvent.postAsync 3) (by decide),
   acceptanceFlagLifecycle.2.2 [DispatchEvent.postSync 1]
      (JniTask.user 1) [] (by decide) (by decide)⟩

/-- C4: a synchronous caller returns true only after the JNI thread has
executed its task — whenever an id is in the returned history, its task is in
the executed history and its result slot has been written — and while the task
has not yet executed the wait on the completion signal does not complete (the
state is unchanged), so the caller never observes the result slot before the
per-call completion signal fires. -/
theorem syncResultVisibleOnlyAfterSignal (es : List DispatchEvent)
    (id : Nat) :
    (id ∈ (dispatchRun es).returned →
      JniTask.user id ∈ (dispatchRun es).executed
      ∧ resultSlotWritten (dispatchRun es) id)
    ∧ (JniTask.user id ∉ (dispatchRun es).executed →
      PostAndWaitForTaskReturn (dispatchRun es) id = dispatchRun es) := by
  refine ⟨fun hret => ?_, fun hmem => ?_⟩
  · have hex := (dispatchInv_run es).2.2 id hret
    exact ⟨hex, hex⟩
  · unfold PostAndWaitForTaskReturn
    rw [if_neg hmem]

theorem syncResultVisibleOnlyAfterSignal_witness :
    5 ∈ (dispatchRun [DispatchEvent.postSync 5, DispatchEvent.execNext,
        DispatchEvent.syncReturn 5]).returned
    ∧ (JniTask.user 5 ∈ (dispatchRun [DispatchEvent.postSync 5,
          DispatchEvent.execNext, DispatchEvent.syncReturn 5]).executed
       ∧ resultSlotWritten (dispatchRun [DispatchEvent.postSync 5,
          DispatchEvent.execNext, DispatchEvent.syncReturn 5]) 5) :=
  ⟨by decide,
   (syncResultVisibleOnlyAfterSignal [DispatchEvent.postSync 5,
      DispatchEvent.execNext, DispatchEvent.syncReturn 5] 5).1 (by decide)⟩

/-- C5: from any reachable state in which the dispatcher is still accepting
tasks, the destructor's shutdown sequence terminates the JNI thread: after the
shutdown flips the flag and appends the terminal task, draining the queue sets
`request_terminate_jni_thread_` (so `JniThreadLoop` exits and the destructor's
join completes), the queue empties, and every task that was pending at the
moment shutdown began runs to completion, in order, before the terminal task
executes. -/
theorem destructorTerminatesAndDrains (es : List DispatchEvent)
    (hw : (dispatchRun es).jni_tasks_welcome_ = true) :
    (shutdownDrain (dispatchRun es)).request_terminate_jni_thread_ = true
    ∧ (shutdownDrain (dispatchRun es)).jni_tasks_ = []
    ∧ (shutdownDrain (dispatchRun es)).executed
      = (dispatchRun es).executed ++ (dispatchRun es).jni_tasks_
          ++ [JniTask.terminal] := by
  obtain ⟨hfifo, himp, hret⟩ := dispatchInv_run es
  obtain ⟨ht, hnq, hne⟩ := himp hw
  have hbs : beginShutdown (dispatchRun es) =
      { dispatchRun es with
          jni_tasks_welcome_ := false
          jni_tasks_ := (dispatchRun es).jni_tasks_ ++ [JniTask.terminal]
          accepted := (dispatchRun es).accepted ++ [JniTask.terminal] } := by
    unfold beginShutdown
    rw [hw]
    simp
  have hq2 : (beginShutdown (dispatchRun es)).jni_tasks_
      = (dispatchRun es).jni_tasks_ ++ [JniTask.terminal] := by
    simp [hbs]
  have ht2 : (beginShutdown (dispatchRun es)).request_terminate_jni_thread_
      = false := by
    simp [hbs, ht]
  have he2 : (beginShutdown (dispatchRun es)).executed
      = (dispatchRun es).executed := by
    simp [hbs]
  have hdrain := drainLoop_terminalFree (dispatchRun es).jni_tasks_
    (beginShutdown (dispatchRun es)) ht2 hnq hq2
  have hlen : (beginShutdown (dispatchRun es)).jni_tasks_.length
      = (dispatchRun es).jni_tasks_.length + 1 := by
    rw [hq2]; simp
  unfold shutdownDrain
  rw [hlen]
  exact ⟨hdrain.2.2, hdrain.1, by rw [hdrain.2.1, he2]⟩

theorem destructorTerminatesAndDrains_witness :
    (dispatchRun [DispatchEvent.postSync 1,
        DispatchEvent.postAsync 2]).jni_tasks_welcome_ = true
    ∧ ((shutdownDrain (dispatchRun [DispatchEvent.postSync 1,
          DispatchEvent.postAsync 2])).request_terminate_jni_thread_ = true
      ∧ (shutdownDrain (dispatchRun [DispatchEvent.postSync 1,
          DispatchEvent.postAsync 2])).jni_tasks_ = []
      ∧ (shutdownDrain (dispatchRun [DispatchEvent.postSync 1,
          DispatchEvent.postAsync 2])).executed
        = (dispatchRun [DispatchEvent.postSync 1,
            DispatchEvent.postAsync 2]).executed
          ++ (dispatchRun [DispatchEvent.postSync 1,
            DispatchEvent.postAsync 2]).jni_tasks_
          ++ [JniTask.terminal]) :=
  ⟨by decide,
   destructorTerminatesAndDrains
     [DispatchEvent.postSync 1, DispatchEvent.postAsync 2] (by decide)⟩

/-- C6: for every forwarded status-returning operation and every input, the
returned integer is 0 exactly when the foreign runtime reported success
(operation succeeded / is allowed); otherwise it is the negated errno — a
negative integer encoding the specific denial or error reason. -/
theorem statusCodeConvention (op : StatusOp) (w : MediaProviderWrapper)
    (java : JavaCall → JavaStatus) (path : String) (uid : Nat)
    (for_write : Bool)
    (hpos : ∀ e, java (statusOpCall op w path uid for_write)
      = JavaStatus.error e → 0 < e) :
    (runStatusOp op w java path uid for_write = 0
      ↔ java (statusOpCall op w path uid for_write) = JavaStatus.success)
    ∧ (∀ e, java (statusOpCall op w path uid for_write)
        = JavaStatus.error e →
        runStatusOp op w java path uid for_write = -(e : Int)
        ∧ runStatusOp op w java path uid for_write < 0) := by
  have hrw : runStatusOp op w java path uid for_write
      = statusToInt (java (statusOpCall op w path uid for_write)) := by
    cases op <;> rfl
  rw [hrw]
  cases hres : java (statusOpCall op w path uid for_write) with
  | success =>
      refine ⟨by simp [statusToInt], fun e he => JavaStatus.noConfusion he⟩
  | error e =>
      have hp := hpos e hres
      refine ⟨⟨fun h => ?_, fun h => JavaStatus.noConfusion h⟩,
        fun e2 he2 => ?_⟩
      · exfalso
        simp [statusToInt] at h
        omega
      · injection he2 with he2
        subst he2
        refine ⟨rfl, ?_⟩
        show -(e : Int) < 0
        omega

theorem statusCodeConvention_witness :
    runStatusOp StatusOp.insertFile sampleWrapper
      (fun _ => JavaStatus.error 13) "/sdcard/x" 1000 false = -13
    ∧ runStatusOp StatusOp.insertFile sampleWrapper
      (fun _ => JavaStatus.error 13) "/sdcard/x" 1000 false < 0 :=
  (statusCodeConvention StatusOp.insertFile sampleWrapper
      (fun _ => JavaStatus.error 13) "/sdcard/x" 1000 false
      (fun e he => by simp at he; omega)).2 13 rfl

/-- C7: ScanFile is the only public forwarded operation submitted
asynchronously — its submission is exactly `PostAsyncTask` (fire-and-forget,
so the task is silently dropped once the acceptance flag is false and no
result is delivered) — while every other public forwarded operation uses
synchronous submission and blocks its caller for the result. -/
theorem scanFileOnlyAsyncSubmission :
    (∀ op, submissionKind op = SubmissionKind.async ↔ op = PublicOp.scanFile)
    ∧ (∀ op, submissionKind op = SubmissionKind.sync ↔ op ≠ PublicOp.scanFile)
    ∧ deliversResult PublicOp.scanFile = false
    ∧ (∀ op, deliversResult op = true ↔ op ≠ PublicOp.scanFile)
    ∧ submitOp PublicOp.scanFile = PostAsyncTask
    ∧ (∀ s taskId, s.jni_tasks_welcome_ = false →
        submitOp PublicOp.scanFile s taskId = s) :=
  ⟨fun op => by cases op <;> decide,
   fun op => by cases op <;> decide,
   rfl,
   fun op => by cases op <;> decide,
   rfl,
   fun s taskId hw => by simp [submitOp, submissionKind, PostAsyncTask, hw]⟩

theorem scanFileOnlyAsyncSubmission_witness :
    (beginShutdown dispatchInit).jni_tasks_welcome_ = false
    ∧ submitOp PublicOp.scanFile (beginShutdown dispatchInit) 3
        = beginShutdown dispatchInit :=
  ⟨by decide,
   scanFileOnlyAsyncSubmission.2.2.2.2.2 (beginShutdown dispatchInit) 3
     (by decide)⟩

/-- C8: GetDirectoryEntries never signals failure through its return value —
it always returns a list of entries, returning the empty list both when the
directory path is unknown to MediaProvider and when no entries are visible to
the calling app, so at this interface those cases are indistinguishable from a
genuinely empty directory. -/
theorem getDirectoryEntriesNoFailureChannel (w : MediaProviderWrapper)
    (java : JavaCall → DirListing) (uid : Nat) (path : String) :
    (java (callGetDirectoryEntries w uid path) = DirListing.unknownPath →
      GetDirectoryEntries w java uid path = [])
    ∧ (java (callGetDirectoryEntries w uid path) = DirListing.visible [] →
      GetDirectoryEntries w java uid path = [])
    ∧ (∀ w2 java2 uid2 path2,
        java (callGetDirectoryEntries w uid path) = DirListing.unknownPath →
        java2 (callGetDirectoryEntries w2 uid2 path2)
          = DirListing.visible [] →
        GetDirectoryEntries w java uid path
          = GetDirectoryEntries w2 java2 uid2 path2) := by
  refine ⟨fun h => ?_, fun h => ?_, fun w2 java2 uid2 path2 h1 h2 => ?_⟩
  · unfold GetDirectoryEntries
    rw [h]
  · unfold GetDirectoryEntries
    rw [h]
  · unfold GetDirectoryEntries
    rw [h1, h2]

theorem getDirectoryEntriesNoFailureChannel_witness :
    GetDirectoryEntries sampleWrapper (fun _ => DirListing.unknownPath)
        1000 "DCIM"
      = GetDirectoryEntries sampleWrapper (fun _ => DirListing.visible [])
        1000 "Pictures" :=
  (getDirectoryEntriesNoFailureChannel sampleWrapper
      (fun _ => DirListing.unknownPath) 1000 "DCIM").2.2
    sampleWrapper (fun _ => DirListing.visible []) 1000 "Pictures" rfl rfl

/-- C9: every public submission operation leaves the cached foreign-runtime
state unchanged — `media_provider_class_`, `media_provider_object_` and all
cached `jmethodID` fields are exactly what construction left there; an
operation only submits a task to the dispatcher. -/
theorem cachedRuntimeStateUnchanged (w : MediaProviderWrapper)
    (op : PublicOp) (taskId : Nat) :
    (runPublicOp w op taskId).media_provider_class_ = w.media_provider_class_
    ∧ (runPublicOp w op taskId).media_provider_object_
        = w.media_provider_object_
    ∧ (runPublicOp w op taskId).mid_get_redaction_ranges_
        = w.mid_get_redaction_ranges_
    ∧ (runPublicOp w op taskId).mid_insert_file_ = w.mid_insert_file_
    ∧ (runPublicOp w op taskId).mid_delete_file_ = w.mid_delete_file_
    ∧ (runPublicOp w op taskId).mid_is_open_allowed_ = w.mid_is_open_allowed_
    ∧ (runPublicOp w op taskId).mid_scan_file_ = w.mid_scan_file_
    ∧ (runPublicOp w op taskId).mid_is_dir_op_allowed_
        = w.mid_is_dir_op_allowed_
    ∧ (runPublicOp w op taskId).mid_is_opendir_allowed_
        = w.mid_is_opendir_allowed_
    ∧ (runPublicOp w op taskId).mid_get_directory_entries_
        = w.mid_get_directory_entries_ :=
  ⟨rfl, rfl, rfl, rfl, rfl, rfl, rfl, rfl, rfl, rfl⟩

/-- C10: IsCreatingDirAllowed and IsDeletingDirAllowed dispatch through the
single shared cached method id `mid_is_dir_op_allowed_`: both foreign calls
are instances of the one common dispatch `callIsDirOpAllowed`, differing only
in the flag distinguishing create from delete, and both operations' results
are that common dispatch's status conversion at the respective flag. -/
theorem dirOpsShareSingleDispatch (w : MediaProviderWrapper)
    (java : JavaCall → JavaStatus) (path : String) (uid : Nat) :
    callIsCreatingDirAllowed w path uid = callIsDirOpAllowed w path uid true
    ∧ callIsDeletingDirAllowed w path uid
        = callIsDirOpAllowed w path uid false
    ∧ (callIsCreatingDirAllowed w path uid).methodId
        = w.mid_is_dir_op_allowed_
    ∧ (callIsDeletingDirAllowed w path uid).methodId
        = w.mid_is_dir_op_allowed_
    ∧ IsCreatingDirAllowed w java path uid
        = statusToInt (java (callIsDirOpAllowed w path uid true))
    ∧ IsDeletingDirAllowed w java path uid
        = statusToInt (java (callIsDirOpAllowed w path uid false)) :=
  ⟨rfl, rfl, rfl, rfl, rfl, rfl⟩
